import Mathlib

/-!
Shallow embedding of the Incubator controller (src/Incubator.ino, first
hardware variant; the second variant shares the same control logic).

Temperatures (`float` in the source) are modelled as rationals; the
control logic only adds and compares them. Arduino `unsigned long`
(32-bit) time arithmetic is modelled on `Nat` with explicit wraparound
via `usub32`. `millis()` is modelled as a single `now` value per call
site within one pass of `loop`.
-/

namespace Incubator

/-- Modulus of Arduino `unsigned long` (32-bit) arithmetic. -/
def wordSize : Nat := 4294967296

/-- Unsigned 32-bit subtraction `a - b`, as computed on `unsigned long`. -/
def usub32 (a b : Nat) : Nat := (a % wordSize + (wordSize - b % wordSize)) % wordSize

/-- `const unsigned long readInterval = 5000;` -/
def readInterval : Nat := 5000

/-- `const unsigned long OnOffInterval = 30000;` -/
def OnOffInterval : Nat := 30000

/-- `const unsigned long saveSettingsInterval = 5000;` -/
def saveSettingsInterval : Nat := 5000

/-- `const float tempDifference = 2;` -/
def tempDifference : ℚ := 2

/-- `const float tempThreshold = 0.3;` -/
def tempThreshold : ℚ := 3 / 10

/-- `const byte eepromInitialized = 101;` -/
def eepromInitialized : Nat := 101

/-- `int addrInitialized = 0;` -/
def addrInitialized : Nat := 0

/-- `int addrSetTemp = 1;` -/
def addrSetTemp : Nat := 1

/-- Initial value of the global `float setTemp = 22;`. -/
def defaultSetTemp : ℚ := 22

/-- C++ conversion of the `float setTemp` to the `uint8_t` argument of
`EEPROM.update`: truncation of the fractional part, reduced to a byte.
The conversion is only defined in C++ for values in `[0, 256)`, where
truncation toward zero coincides with the floor. -/
def floatToByte (q : ℚ) : Nat := (⌊q⌋).toNat % 256

/-- The global mutable state of the sketch: the status variables, the
timestamp variables, the relay output pin level, and the EEPROM contents
(byte-addressable, modelled as `Nat → Nat` with values below 256). -/
structure SysState where
  heaterIsOn : Bool
  relayHigh : Bool
  setTemp : ℚ
  currentTemp : ℚ
  prevTemp : ℚ
  readTempMillis : Nat
  heaterOnMillis : Nat
  heaterOffMillis : Nat
  lastSaveSettingsMillis : Nat
  eeprom : Nat → Nat

/-- `EEPROM.update(addr, v)`: the byte at `addr` becomes `v` (other cells
unchanged; the read-before-write of `update` is unobservable in the
resulting contents). -/
def eepromUpdate (addr v : Nat) (e : Nat → Nat) : Nat → Nat :=
  fun a => if a = addr then v % 256 else e a

/-- `SaveSettings()` of the first variant: `EEPROM.update(addrSetTemp, setTemp);
lastSaveSettingsMillis = millis();`. -/
def SaveSettings (now : Nat) (st : SysState) : SysState :=
  { st with
    eeprom := eepromUpdate addrSetTemp (floatToByte st.setTemp) st.eeprom
    lastSaveSettingsMillis := now }

/-- `turnHeaterOn()`: sets the flag, drives the relay pin HIGH and records
the time, all together. -/
def turnHeaterOn (now : Nat) (st : SysState) : SysState :=
  { st with heaterIsOn := true, relayHigh := true, heaterOnMillis := now }

/-- `turnHeaterOff()`: clears the flag, drives the relay pin LOW and
records the time, all together. -/
def turnHeaterOff (now : Nat) (st : SysState) : SysState :=
  { st with heaterIsOn := false, relayHigh := false, heaterOffMillis := now }

/-- `readTemperatureWithInterval()`: returns `false` leaving everything
unchanged when less than `readInterval` ms have elapsed since the last
sample; otherwise stores the sensor reading in `currentTemp`, records the
sample time and returns `true`. -/
def readTemperatureWithInterval (sensor : ℚ) (now : Nat) (st : SysState) :
    Bool × SysState :=
  if usub32 now st.readTempMillis < readInterval then (false, st)
  else (true, { st with currentTemp := sensor, readTempMillis := now })

/-- The button-dispatch block at the top of `loop()` (first variant):
combined press with the save interval elapsed saves the settings;
otherwise a left press decrements and a right press increments `setTemp`. -/
def buttonsUpdate (btnLeft btnRight : Bool) (now : Nat) (st : SysState) :
    SysState :=
  if btnLeft = true ∧ btnRight = true ∧
      saveSettingsInterval < usub32 now st.lastSaveSettingsMillis then
    SaveSettings now st
  else if btnLeft = true then { st with setTemp := st.setTemp - 1 }
  else if btnRight = true then { st with setTemp := st.setTemp + 1 }
  else st

/-- The sampling block of `loop()`: poll the sampler; on a fresh reading
that differs from `prevTemp`, refresh the display and record it. -/
def samplerPhase (sensor : ℚ) (now : Nat) (st : SysState) : SysState :=
  let r := readTemperatureWithInterval sensor now st
  if r.1 = true ∧ r.2.prevTemp ≠ r.2.currentTemp then
    { r.2 with prevTemp := r.2.currentTemp }
  else r.2

/-- The heater decision block of `loop()` (lines 104-124): compute
`overShootControlActive` and dispatch on the two regimes. -/
def heaterUpdate (now : Nat) (st : SysState) : SysState :=
  if st.setTemp - st.currentTemp ≤ tempDifference then
    if st.currentTemp + tempThreshold < st.setTemp ∧ st.heaterIsOn = false ∧
        OnOffInterval < usub32 now st.heaterOffMillis then
      turnHeaterOn now st
    else if st.heaterIsOn = true ∧
        (st.setTemp ≤ st.currentTemp ∨ OnOffInterval < usub32 now st.heaterOnMillis) then
      turnHeaterOff now st
    else st
  else if st.currentTemp < st.setTemp ∧ st.heaterIsOn = false then
    turnHeaterOn now st
  else st

/-- One full pass of `loop()`, with the `millis()` reads of the pass
collapsed to a single `now` and the buttons and sensor given as inputs. -/
def loopCycle (btnLeft btnRight : Bool) (sensor : ℚ) (now : Nat)
    (st : SysState) : SysState :=
  heaterUpdate now (samplerPhase sensor now (buttonsUpdate btnLeft btnRight now st))

/-- `setup()`: globals start zero-initialized (`setTemp = 22`,
`heaterIsOn = false`, relay pin LOW after `pinMode`); if the EEPROM
sentinel is absent, write it and save the (default) settings; then load
`setTemp` from the EEPROM and take the first sensor reading. -/
def setup (sensor : ℚ) (bootNow : Nat) (e : Nat → Nat) : SysState :=
  let st0 : SysState :=
    { heaterIsOn := false
      relayHigh := false
      setTemp := defaultSetTemp
      currentTemp := 0
      prevTemp := 0
      readTempMillis := 0
      heaterOnMillis := 0
      heaterOffMillis := 0
      lastSaveSettingsMillis := 0
      eeprom := e }
  let st1 :=
    if e addrInitialized ≠ eepromInitialized then
      SaveSettings bootNow { st0 with eeprom := eepromUpdate addrInitialized eepromInitialized e }
    else st0
  { st1 with setTemp := (st1.eeprom addrSetTemp : ℚ), currentTemp := sensor }

/-- The reachable states: any boot (`setup` on arbitrary EEPROM contents)
followed by any number of `loop` passes with arbitrary inputs. -/
inductive Reachable : SysState → Prop
  | boot (sensor : ℚ) (bootNow : Nat) (e : Nat → Nat) :
      Reachable (setup sensor bootNow e)
  | step (btnLeft btnRight : Bool) (sensor : ℚ) (now : Nat) (st : SysState) :
      Reachable st → Reachable (loopCycle btnLeft btnRight sensor now st)

/-- A concrete baseline state used to instantiate theorems on concrete
inputs (post-boot values: heater off, relay low, `setTemp = 22`). -/
def baseState : SysState :=
  { heaterIsOn := false
    relayHigh := false
    setTemp := 22
    currentTemp := 0
    prevTemp := 0
    readTempMillis := 0
    heaterOnMillis := 0
    heaterOffMillis := 0
    lastSaveSettingsMillis := 0
    eeprom := fun _ => 0 }

/-- `heaterUpdate` never touches the EEPROM, the save timestamp, the
setpoint, the reading, or the sample timestamp. -/
theorem heaterUpdate_frame (now : Nat) (st : SysState) :
    (heaterUpdate now st).eeprom = st.eeprom ∧
    (heaterUpdate now st).lastSaveSettingsMillis = st.lastSaveSettingsMillis ∧
    (heaterUpdate now st).setTemp = st.setTemp := by
  unfold heaterUpdate turnHeaterOn turnHeaterOff
  split_ifs <;> exact ⟨rfl, rfl, rfl⟩

/-- `samplerPhase` never touches the EEPROM, the save timestamp, the
setpoint, the heater flag, or the relay. -/
theorem samplerPhase_frame (sensor : ℚ) (now : Nat) (st : SysState) :
    (samplerPhase sensor now st).eeprom = st.eeprom ∧
    (samplerPhase sensor now st).lastSaveSettingsMillis = st.lastSaveSettingsMillis ∧
    (samplerPhase sensor now st).setTemp = st.setTemp ∧
    (samplerPhase sensor now st).heaterIsOn = st.heaterIsOn ∧
    (samplerPhase sensor now st).relayHigh = st.relayHigh := by
  unfold samplerPhase readTemperatureWithInterval
  dsimp only
  split_ifs <;> exact ⟨rfl, rfl, rfl, rfl, rfl⟩

/-- `buttonsUpdate` never touches the heater flag or the relay. -/
theorem buttonsUpdate_heater_frame (btnLeft btnRight : Bool) (now : Nat) (st : SysState) :
    (buttonsUpdate btnLeft btnRight now st).heaterIsOn = st.heaterIsOn ∧
    (buttonsUpdate btnLeft btnRight now st).relayHigh = st.relayHigh := by
  unfold buttonsUpdate SaveSettings
  split_ifs <;> exact ⟨rfl, rfl⟩

/-- When the combined-press-with-interval condition fails, `buttonsUpdate`
leaves the EEPROM and the save timestamp unchanged. -/
theorem buttonsUpdate_noSave (btnLeft btnRight : Bool) (now : Nat) (st : SysState)
    (h : ¬ (btnLeft = true ∧ btnRight = true ∧
      saveSettingsInterval < usub32 now st.lastSaveSettingsMillis)) :
    (buttonsUpdate btnLeft btnRight now st).eeprom = st.eeprom ∧
    (buttonsUpdate btnLeft btnRight now st).lastSaveSettingsMillis =
      st.lastSaveSettingsMillis := by
  unfold buttonsUpdate
  split_ifs <;> first | exact ⟨rfl, rfl⟩ | exact absurd (by assumption) h

/-- When the combined-press-with-interval condition holds, `buttonsUpdate`
performs `SaveSettings`. -/
theorem buttonsUpdate_save (btnLeft btnRight : Bool) (now : Nat) (st : SysState)
    (h : btnLeft = true ∧ btnRight = true ∧
      saveSettingsInterval < usub32 now st.lastSaveSettingsMillis) :
    buttonsUpdate btnLeft btnRight now st = SaveSettings now st := by
  unfold buttonsUpdate
  split_ifs <;> first | rfl | exact absurd h (by assumption)

/-- C1: the heater decision is the two-regime function of §4.4 of the
spec. With `overshootGuardActive = (setTemp - currentTemp ≤ tempDifference)`:
when the guard is active the heater turns On iff it is Off,
`currentTemp + tempThreshold < setTemp` and `now - heaterOffMillis >
OnOffInterval`, and turns Off iff it is On and (`currentTemp ≥ setTemp` or
`now - heaterOnMillis > OnOffInterval`); when the guard is inactive the
heater turns On iff it is Off and `currentTemp < setTemp` (no dwell
gating) and never turns Off; in every other case the whole state is
unchanged. -/
theorem heater_decision_two_regime (now : Nat) (st : SysState) :
    (st.setTemp - st.currentTemp ≤ tempDifference →
      (((heaterUpdate now st).heaterIsOn = true ∧ st.heaterIsOn = false) ↔
        (st.heaterIsOn = false ∧ st.currentTemp + tempThreshold < st.setTemp ∧
          OnOffInterval < usub32 now st.heaterOffMillis))) ∧
    (st.setTemp - st.currentTemp ≤ tempDifference →
      (((heaterUpdate now st).heaterIsOn = false ∧ st.heaterIsOn = true) ↔
        (st.heaterIsOn = true ∧
          (st.setTemp ≤ st.currentTemp ∨ OnOffInterval < usub32 now st.heaterOnMillis)))) ∧
    (¬ (st.setTemp - st.currentTemp ≤ tempDifference) →
      (((heaterUpdate now st).heaterIsOn = true ∧ st.heaterIsOn = false) ↔
        (st.heaterIsOn = false ∧ st.currentTemp < st.setTemp))) ∧
    (¬ (st.setTemp - st.currentTemp ≤ tempDifference) →
      ¬ ((heaterUpdate now st).heaterIsOn = false ∧ st.heaterIsOn = true)) ∧
    ((heaterUpdate now st).heaterIsOn = st.heaterIsOn → heaterUpdate now st = st) := by
  unfold heaterUpdate
  split_ifs with hg h1 h2 h3 <;>
      simp_all [turnHeaterOn, turnHeaterOff, tempDifference] <;>
    first
      | tauto
      | linarith
      | (intro h
         have hlt : st.currentTemp < st.setTemp := by linarith
         simp_all)

/-- C1 witness: concrete guard-active turn-on at `currentTemp = 21`,
`setTemp = 22`, heater Off, last-off 40000 ms ago. -/
theorem heater_decision_two_regime_witness :
    (heaterUpdate 40000 { baseState with currentTemp := 21 }).heaterIsOn = true ∧
    ({ baseState with currentTemp := 21 } : SysState).heaterIsOn = false := by
  refine ((heater_decision_two_regime 40000 { baseState with currentTemp := 21 }).1
    (by norm_num [baseState, tempDifference])).mpr ⟨rfl, ?_, by decide⟩
  norm_num [baseState, tempThreshold]

/-- State for the C2 counterexample: heater On since time 0 with the
temperature far below the setpoint. -/
def cxC2 : SysState :=
  { baseState with heaterIsOn := true, relayHigh := true, currentTemp := 10 }

/-- C2 counterexample: heater On, `currentTemp = 10` far below
`setTemp = 22` (overshoot guard inactive), heater on since time 0, now
40000 ms later (dwell exceeded) — yet the decision leaves the heater On,
so the safety cutoff does not apply when the guard is inactive. -/
theorem safety_cutoff_guard_inactive_cx :
    cxC2.heaterIsOn = true ∧
    OnOffInterval < usub32 40000 cxC2.heaterOnMillis ∧
    cxC2.currentTemp < cxC2.setTemp ∧
    (heaterUpdate 40000 cxC2).heaterIsOn = true := by
  refine ⟨rfl, by decide, by norm_num [cxC2, baseState], ?_⟩
  norm_num [cxC2, baseState, heaterUpdate, tempDifference, tempThreshold]

/-- C2 amended: the dwell-interval safety cutoff holds in the regime where
the overshoot guard is active: whenever the heater is On,
`setTemp - currentTemp ≤ tempDifference`, and `now - heaterOnMillis >
OnOffInterval`, the decision turns the heater Off even if
`currentTemp < setTemp`; when the guard is inactive the code's
far-below-setpoint branch cannot turn the heater Off. -/
theorem safety_cutoff_guard_active (now : Nat) (st : SysState)
    (hOn : st.heaterIsOn = true)
    (hguard : st.setTemp - st.currentTemp ≤ tempDifference)
    (hdwell : OnOffInterval < usub32 now st.heaterOnMillis) :
    (heaterUpdate now st).heaterIsOn = false := by
  unfold heaterUpdate
  split_ifs with hg h1 h2 <;> simp_all [turnHeaterOn, turnHeaterOff]

/-- C2 amended witness: heater On at `currentTemp = 21`, `setTemp = 22`
(guard active, below setpoint), on since time 0, evaluated at 40000 ms. -/
theorem safety_cutoff_guard_active_witness :
    (heaterUpdate 40000
      { baseState with heaterIsOn := true, relayHigh := true, currentTemp := 21 }).heaterIsOn
      = false :=
  safety_cutoff_guard_active 40000
    { baseState with heaterIsOn := true, relayHigh := true, currentTemp := 21 }
    rfl (by norm_num [baseState, tempDifference]) (by decide)

/-- C3: whenever `currentTemp < setTemp - tempDifference` and the heater
is Off, the decision turns it On in this cycle, for all values of the
dwell timers `heaterOnMillis` and `heaterOffMillis` (fast-recovery zone,
no dwell gating). -/
theorem fast_recovery_ignores_dwell (now : Nat) (st : SysState)
    (hOff : st.heaterIsOn = false)
    (hfar : st.currentTemp < st.setTemp - tempDifference) :
    (heaterUpdate now st).heaterIsOn = true := by
  unfold heaterUpdate
  have hg : ¬ (st.setTemp - st.currentTemp ≤ tempDifference) := by
    simp only [tempDifference] at hfar ⊢
    linarith
  have hlt : st.currentTemp < st.setTemp := by
    simp only [tempDifference] at hfar
    linarith
  split_ifs with h1 h2 <;> simp_all [turnHeaterOn]

/-- State for the C3 witness: heater Off at `currentTemp = 19`,
`setTemp = 22`, with both dwell timers recording recent transitions. -/
def wC3 : SysState :=
  { baseState with currentTemp := 19, heaterOnMillis := 100, heaterOffMillis := 100 }

/-- C3 witness: the fast-recovery turn-on at time 200, only 100 ms after
both recorded transitions. -/
theorem fast_recovery_ignores_dwell_witness :
    (heaterUpdate 200 wC3).heaterIsOn = true :=
  fast_recovery_ignores_dwell 200 wC3 rfl
    (by norm_num [wC3, baseState, tempDifference])

/-- When the sentinel is already present, `setup` leaves the EEPROM
unchanged and loads the setpoint byte from offset 1. -/
theorem setup_initialized (sensor : ℚ) (bootNow : Nat) (e : Nat → Nat)
    (h : e addrInitialized = eepromInitialized) :
    (setup sensor bootNow e).eeprom = e ∧
    (setup sensor bootNow e).setTemp = (e addrSetTemp : ℚ) := by
  unfold setup
  dsimp only
  rw [if_neg (by simp [h])]
  exact ⟨rfl, rfl⟩

/-- C4: on first boot (byte at offset 0 differs from the sentinel 101)
`setup` writes the sentinel at offset 0 and the default setpoint at offset
1 and ends with the in-memory setpoint 22; on a later boot (sentinel
present) it reads the persisted setpoint without writing anything. -/
theorem loadOrInitialize_first_and_later_boot (sensor : ℚ) (bootNow : Nat)
    (e : Nat → Nat) :
    (e addrInitialized ≠ eepromInitialized →
      (setup sensor bootNow e).eeprom addrInitialized = eepromInitialized ∧
      (setup sensor bootNow e).eeprom addrSetTemp = 22 ∧
      (setup sensor bootNow e).setTemp = 22) ∧
    (e addrInitialized = eepromInitialized →
      (setup sensor bootNow e).eeprom = e ∧
      (setup sensor bootNow e).setTemp = (e addrSetTemp : ℚ)) := by
  constructor
  · intro h
    unfold setup
    dsimp only
    rw [if_pos h]
    refine ⟨?_, ?_, ?_⟩ <;>
        norm_num [SaveSettings, eepromUpdate, addrInitialized, addrSetTemp,
          eepromInitialized, defaultSetTemp, floatToByte] <;>
      simp [Int.toNat_ofNat]
  · exact setup_initialized sensor bootNow e

/-- C4 witness: first boot on all-zero storage returns 22 and writes the
sentinel; later boot on initialized storage returns the persisted byte 37. -/
theorem loadOrInitialize_first_and_later_boot_witness :
    ((setup 0 5 (fun _ => 0)).setTemp = 22 ∧
      (setup 0 5 (fun _ => 0)).eeprom addrInitialized = eepromInitialized) ∧
    (setup 0 5 (fun a => if a = 0 then 101 else 37)).setTemp = ((37 : Nat) : ℚ) := by
  refine ⟨⟨?_, ?_⟩, ?_⟩
  · exact ((loadOrInitialize_first_and_later_boot 0 5 (fun _ => 0)).1 (by decide)).2.2
  · exact ((loadOrInitialize_first_and_later_boot 0 5 (fun _ => 0)).1 (by decide)).1
  · exact ((loadOrInitialize_first_and_later_boot 0 5
      (fun a => if a = 0 then 101 else 37)).2 (by decide)).2

/-- C5: `SaveSettings` stores the setpoint at offset 1 as a single byte,
the integer truncation of the value (the C++ `float`-to-`uint8_t`
conversion is only defined for values in `[0, 256)`, where it is the
floor), so on an initialized device the setpoint restored by the next
boot equals the whole-degree truncation of the value that was saved:
fractional precision is not preserved across a power cycle. -/
theorem save_byte_truncation_roundtrip (sensor : ℚ) (now bootNow : Nat)
    (st : SysState) (h0 : 0 ≤ st.setTemp) (h1 : st.setTemp < 256)
    (hinit : st.eeprom addrInitialized = eepromInitialized) :
    (SaveSettings now st).eeprom addrSetTemp = (⌊st.setTemp⌋).toNat ∧
    (⌊st.setTemp⌋).toNat < 256 ∧
    (setup sensor bootNow (SaveSettings now st).eeprom).setTemp =
      ((⌊st.setTemp⌋ : ℤ) : ℚ) := by
  have hfl : ⌊st.setTemp⌋ < 256 := by
    rw [Int.floor_lt]
    exact_mod_cast h1
  have h0i : 0 ≤ ⌊st.setTemp⌋ := Int.floor_nonneg.mpr h0
  have htn : (⌊st.setTemp⌋).toNat < 256 := by omega
  have hbyte : floatToByte st.setTemp = (⌊st.setTemp⌋).toNat := by
    unfold floatToByte
    exact Nat.mod_eq_of_lt htn
  have hsave : (SaveSettings now st).eeprom addrSetTemp = (⌊st.setTemp⌋).toNat := by
    simp [SaveSettings, eepromUpdate, hbyte, Nat.mod_eq_of_lt htn]
  have he0 : (SaveSettings now st).eeprom addrInitialized = eepromInitialized := by
    simpa [SaveSettings, eepromUpdate, addrInitialized, addrSetTemp] using hinit
  refine ⟨hsave, htn, ?_⟩
  rw [(setup_initialized sensor bootNow (SaveSettings now st).eeprom he0).2, hsave]
  exact_mod_cast Int.toNat_of_nonneg h0i

/-- State for the C5 witness: in-memory setpoint 22.5 on an initialized
device. -/
def wC5 : SysState :=
  { baseState with setTemp := 45 / 2, eeprom := fun a => if a = 0 then 101 else 0 }

/-- C5 witness: saving 22.5 stores the byte 22, and the next boot restores
the setpoint 22. -/
theorem save_byte_truncation_roundtrip_witness :
    (SaveSettings 3 wC5).eeprom addrSetTemp = (⌊wC5.setTemp⌋).toNat ∧
    (setup 0 7 (SaveSettings 3 wC5).eeprom).setTemp = ((⌊wC5.setTemp⌋ : ℤ) : ℚ) := by
  have h := save_byte_truncation_roundtrip 0 3 7 wC5
    (by norm_num [wC5, baseState]) (by norm_num [wC5, baseState]) (by decide)
  exact ⟨h.1, h.2.2⟩

/-- C6: the Temperature Sampler's poll returns a fresh reading exactly
when `now - readTempMillis ≥ readInterval`; otherwise it returns `false`
and leaves the whole state (in particular `currentTemp` and
`readTempMillis`) unchanged; on a fresh poll it stores the sensor value
and records `now`. -/
theorem sampler_poll_interval (sensor : ℚ) (now : Nat) (st : SysState) :
    ((readTemperatureWithInterval sensor now st).1 = true ↔
      readInterval ≤ usub32 now st.readTempMillis) ∧
    ((readTemperatureWithInterval sensor now st).1 = false →
      (readTemperatureWithInterval sensor now st).2 = st) ∧
    ((readTemperatureWithInterval sensor now st).1 = true →
      (readTemperatureWithInterval sensor now st).2 =
        { st with currentTemp := sensor, readTempMillis := now }) := by
  unfold readTemperatureWithInterval
  split_ifs with h <;> simp_all <;> omega

/-- C6 witness: at 100 ms since a sample at 0 the poll is skipped and the
state kept; at 6000 ms the poll is fresh. -/
theorem sampler_poll_interval_witness :
    usub32 100 baseState.readTempMillis < readInterval ∧
    (readTemperatureWithInterval 5 100 baseState).2 = baseState ∧
    readInterval ≤ usub32 6000 baseState.readTempMillis ∧
    (readTemperatureWithInterval 5 6000 baseState).1 = true := by
  refine ⟨by decide, (sampler_poll_interval 5 100 baseState).2.1 (by decide), by decide,
    (sampler_poll_interval 5 6000 baseState).1.mpr (by decide)⟩

/-- C7: `SaveSettings` is idempotent on storage — saving twice with the
setpoint unchanged in between leaves the EEPROM byte-identical to the
state after the first save. -/
theorem save_idempotent (now1 now2 : Nat) (st : SysState) :
    (SaveSettings now2 (SaveSettings now1 st)).eeprom =
      (SaveSettings now1 st).eeprom := by
  funext a
  simp only [SaveSettings, eepromUpdate]
  split_ifs <;> rfl

/-- C8: a right-press (`adjust(+1.0)`) followed by a left-press
(`adjust(-1.0)`) restores exactly the prior in-memory setpoint, and
neither press writes to the EEPROM. -/
theorem adjust_roundtrip_no_persist (now1 now2 : Nat) (st : SysState) :
    (buttonsUpdate false true now1 st).setTemp = st.setTemp + 1 ∧
    (buttonsUpdate false true now1 st).eeprom = st.eeprom ∧
    (buttonsUpdate true false now2 (buttonsUpdate false true now1 st)).setTemp =
      st.setTemp ∧
    (buttonsUpdate true false now2 (buttonsUpdate false true now1 st)).eeprom =
      st.eeprom := by
  simp [buttonsUpdate]

/-- `heaterUpdate` keeps the relay output and the heater flag consistent:
the only transitions are `turnHeaterOn` / `turnHeaterOff`, which set both
together. -/
theorem heaterUpdate_consistent (now : Nat) (s : SysState)
    (h : s.relayHigh = s.heaterIsOn) :
    (heaterUpdate now s).relayHigh = (heaterUpdate now s).heaterIsOn := by
  unfold heaterUpdate turnHeaterOn turnHeaterOff
  split_ifs <;> first | rfl | exact h

/-- C9: in every reachable state (any boot followed by any number of loop
passes) the relay pin is HIGH exactly when `heaterIsOn` is true: each
transition updates the flag and the relay together, and no other
operation touches either. -/
theorem relay_consistent_reachable (st : SysState) (h : Reachable st) :
    st.relayHigh = st.heaterIsOn := by
  induction h with
  | boot sensor bootNow e =>
      unfold setup
      dsimp only
      split_ifs <;> rfl
  | step bL bR sensor now st' hr ih =>
      unfold loopCycle
      have hb := buttonsUpdate_heater_frame bL bR now st'
      have hs := samplerPhase_frame sensor now (buttonsUpdate bL bR now st')
      apply heaterUpdate_consistent
      rw [hs.2.2.2.2, hs.2.2.2.1, hb.2, hb.1, ih]

/-- C9 witness: the boot state on blank storage has the relay LOW and the
heater flag false. -/
theorem relay_consistent_reachable_witness :
    (setup 0 0 (fun _ => 0)).relayHigh = (setup 0 0 (fun _ => 0)).heaterIsOn :=
  relay_consistent_reachable _ (Reachable.boot 0 0 (fun _ => 0))

/-- Within one loop pass, the EEPROM and the save timestamp are exactly
what the button-dispatch block leaves: the sampler and heater blocks never
touch them. -/
theorem loopCycle_persist_frame (bL bR : Bool) (sensor : ℚ) (now : Nat)
    (st : SysState) :
    (loopCycle bL bR sensor now st).eeprom = (buttonsUpdate bL bR now st).eeprom ∧
    (loopCycle bL bR sensor now st).lastSaveSettingsMillis =
      (buttonsUpdate bL bR now st).lastSaveSettingsMillis := by
  unfold loopCycle
  have hh := heaterUpdate_frame now (samplerPhase sensor now (buttonsUpdate bL bR now st))
  have hs := samplerPhase_frame sensor now (buttonsUpdate bL bR now st)
  exact ⟨hh.1.trans hs.1, hh.2.1.trans hs.2.1⟩

/-- C10 (first hardware variant): the combined-press save gesture writes
to the EEPROM only when more than `saveSettingsInterval` ms have elapsed
since the previous save; a first-boot initialization save also sets the
save timestamp; a cycle inside the window changes neither the EEPROM nor
the timestamp; and a performed save stamps `now`, so a second cycle
within `saveSettingsInterval` of a save performs no storage write. -/
theorem combined_save_rate_limited (bL bR bL2 bR2 : Bool) (sensor sensor2 : ℚ)
    (now now2 bootNow : Nat) (st : SysState) (e : Nat → Nat) :
    (e addrInitialized ≠ eepromInitialized →
      (setup sensor bootNow e).lastSaveSettingsMillis = bootNow) ∧
    (usub32 now st.lastSaveSettingsMillis ≤ saveSettingsInterval →
      (loopCycle bL bR sensor now st).eeprom = st.eeprom ∧
      (loopCycle bL bR sensor now st).lastSaveSettingsMillis =
        st.lastSaveSettingsMillis) ∧
    (bL = true → bR = true →
      saveSettingsInterval < usub32 now st.lastSaveSettingsMillis →
      (loopCycle bL bR sensor now st).eeprom =
        eepromUpdate addrSetTemp (floatToByte st.setTemp) st.eeprom ∧
      (loopCycle bL bR sensor now st).lastSaveSettingsMillis = now ∧
      (usub32 now2 now ≤ saveSettingsInterval →
        (loopCycle bL2 bR2 sensor2 now2 (loopCycle bL bR sensor now st)).eeprom =
          (loopCycle bL bR sensor now st).eeprom)) := by
  refine ⟨?_, ?_, ?_⟩
  · intro h
    unfold setup
    dsimp only
    rw [if_pos h]
    rfl
  · intro h
    have hns := buttonsUpdate_noSave bL bR now st
      (fun hc => absurd hc.2.2 (not_lt.mpr h))
    have hframe := loopCycle_persist_frame bL bR sensor now st
    exact ⟨hframe.1.trans hns.1, hframe.2.trans hns.2⟩
  · intro hbl hbr hlt
    have hsv := buttonsUpdate_save bL bR now st ⟨hbl, hbr, hlt⟩
    have hframe := loopCycle_persist_frame bL bR sensor now st
    have heq : (loopCycle bL bR sensor now st).eeprom =
        eepromUpdate addrSetTemp (floatToByte st.setTemp) st.eeprom := by
      rw [hframe.1, hsv]
      rfl
    have hts : (loopCycle bL bR sensor now st).lastSaveSettingsMillis = now := by
      rw [hframe.2, hsv]
      rfl
    refine ⟨heq, hts, ?_⟩
    intro h2
    have hns := buttonsUpdate_noSave bL2 bR2 now2 (loopCycle bL bR sensor now st)
      (fun hc => by
        rw [hts] at hc
        exact absurd hc.2.2 (not_lt.mpr h2))
    exact (loopCycle_persist_frame bL2 bR2 sensor2 now2
      (loopCycle bL bR sensor now st)).1.trans hns.1

/-- C10 witness: first-boot save at 9 ms stamps 9; a combined press at
1000 ms (within the window of the timestamp 0) writes nothing; a combined
press at 6000 ms saves and stamps 6000; the next cycle at 7000 ms writes
nothing. -/
theorem combined_save_rate_limited_witness :
    (setup 0 9 (fun _ => 0)).lastSaveSettingsMillis = 9 ∧
    ((loopCycle true true 0 1000 baseState).eeprom = baseState.eeprom ∧
      (loopCycle true true 0 1000 baseState).lastSaveSettingsMillis =
        baseState.lastSaveSettingsMillis) ∧
    (loopCycle true true 0 6000 baseState).lastSaveSettingsMillis = 6000 ∧
    (loopCycle false true 0 7000 (loopCycle true true 0 6000 baseState)).eeprom =
      (loopCycle true true 0 6000 baseState).eeprom := by
  refine ⟨?_, ?_, ?_, ?_⟩
  · exact (combined_save_rate_limited true true true true 0 0 9 9 9 baseState
      (fun _ => 0)).1 (by decide)
  · exact (combined_save_rate_limited true true true true 0 0 1000 1000 9 baseState
      (fun _ => 0)).2.1 (by decide)
  · exact ((combined_save_rate_limited true true false true 0 0 6000 7000 9 baseState
      (fun _ => 0)).2.2 rfl rfl (by decide)).2.1
  · exact ((combined_save_rate_limited true true false true 0 0 6000 7000 9 baseState
      (fun _ => 0)).2.2 rfl rfl (by decide)).2.2 (by decide)

end Incubator
